import Mathlib

/-! The `gegl:stroke` meta operation (`stroke.c`).

A shallow embedding of the graph-wiring logic of `stroke.c`: the property
declarations, `attach`, `update_graph` and `dispose`, over a small model of the
host graph (child nodes, pad connections, property redirections).
-/

namespace Stroke

/-! ## Values -/

/-- A C `gdouble`: a finite value (kept exactly, as a rational), an infinity or NaN. -/
inductive GDouble where
  | finite (q : ℚ)
  | pos_inf
  | neg_inf
  | nan
  deriving DecidableEq

/-- The C comparison `a > b` on doubles; it is false as soon as one side is NaN. -/
def GDouble.gt : GDouble → GDouble → Bool
  | .finite a, .finite b => decide (b < a)
  | .finite _, .neg_inf => true
  | .pos_inf, .finite _ => true
  | .pos_inf, .neg_inf => true
  | _, _ => false

/-- The C comparison `a <= b` on doubles; it is false as soon as one side is NaN. -/
def GDouble.le : GDouble → GDouble → Bool
  | .finite a, .finite b => decide (a ≤ b)
  | .finite _, .pos_inf => true
  | .neg_inf, .finite _ => true
  | .neg_inf, .neg_inf => true
  | .neg_inf, .pos_inf => true
  | .pos_inf, .pos_inf => true
  | _, _ => false

/-- The double denoted by the C literal `0.0001` (the constant compared against in
`update_graph`): the double nearest to 1/10000, which is 7378697629483821 / 2^66. -/
def dbl_0_0001 : GDouble := .finite (7378697629483821 / 73786976294838206464)

/-- The double denoted by the C literal `0.00011`: 8116567392432203 / 2^66. -/
def dbl_0_00011 : GDouble := .finite (8116567392432203 / 73786976294838206464)

/-- The double denoted by `-0.0001`. -/
def dbl_neg_0_0001 : GDouble := .finite (-7378697629483821 / 73786976294838206464)

/-- The enumeration `GeglborderGrowShape` declared at the top of `stroke.c`. -/
inductive GeglborderGrowShape where
  | GEGL_border_GROW_SHAPE_SQUARE
  | GEGL_border_GROW_SHAPE_CIRCLE
  | GEGL_border_GROW_SHAPE_DIAMOND
  deriving DecidableEq

/-- A colour value of the host: red, green, blue and alpha components. -/
structure GeglColor where
  r : ℚ
  g : ℚ
  b : ℚ
  a : ℚ
  deriving DecidableEq

/-- Modelled from the spec: the host's colour constructor, which is not part of this
repository. Only the two descriptors used by `stroke.c` are interpreted, both as
opaque black; any other descriptor yields the host's fallback colour. -/
def gegl_color_new (descr : String) : GeglColor :=
  if descr = "rgb(0.0,0.0,0.0)" then ⟨0, 0, 0, 1⟩
  else if descr = "black" then ⟨0, 0, 0, 1⟩
  else ⟨0, 1, 1, 67 / 100⟩

/-- The C constant `FALSE`. -/
def FALSE : Int := 0

/-- Modelled from the spec: the host enumeration constant `GEGL_ABYSS_NONE`
("no extension" boundary policy), the first member of the host's abyss-policy
enumeration. -/
def GEGL_ABYSS_NONE : Int := 0

/-- A value that can be stored in a node property. -/
inductive GValue where
  | double (d : GDouble)
  | int (i : Int)
  | color (c : GeglColor)
  | shape (s : GeglborderGrowShape)
  deriving DecidableEq

/-! ## Host graph -/

/-- A handle on a node of the host graph: one of the two kinds of proxy of the
meta operation's own node, or the `idx`-th child created in it. -/
inductive GeglNodeRef where
  | input_proxy (pad : String)
  | output_proxy (pad : String)
  | child (idx : Nat)
  deriving DecidableEq

/-- A child node: the name of its operation and the properties set on it. -/
structure GeglChild where
  operation : String
  properties : List (String × GValue)
  deriving DecidableEq

/-- A connection from the pad `source_pad` of `source` to the pad `sink_pad` of `sink`. -/
structure GeglConnection where
  source : GeglNodeRef
  source_pad : String
  sink : GeglNodeRef
  sink_pad : String
  deriving DecidableEq

/-- The graph hanging off `operation->node`: its children and their connections. -/
structure GeglNode where
  children : List GeglChild
  connections : List GeglConnection
  deriving DecidableEq

/-- A registered redirection of the external property `name` to the property
`internal_name` of the node `internal`. -/
structure Redirect where
  name : String
  internal : GeglNodeRef
  internal_name : String
  deriving DecidableEq

/-- The struct `State` of `stroke.c`. -/
structure State where
  input : GeglNodeRef
  grow : GeglNodeRef
  darken : GeglNodeRef
  deriving DecidableEq

/-- The struct `GeglProperties` generated from the property declarations of
`stroke.c`, with its `user_data` pointer (`none` is `NULL`). -/
structure GeglProperties where
  radius : GDouble
  grow_shape : GeglborderGrowShape
  grow_radius : GDouble
  color : GeglColor
  opacity : GDouble
  user_data : Option State
  deriving DecidableEq

/-- A meta operation instance: its properties, its node and its redirections. -/
structure GeglOperation where
  properties : GeglProperties
  node : GeglNode
  redirects : List Redirect
  deriving DecidableEq

/-! ## Property declarations -/

/-- A `property_double` declaration: its default and its `value_range`. -/
structure PropertyDouble where
  name : String
  default : ℚ
  value_min : ℚ
  value_max : ℚ
  deriving DecidableEq

/-- The declaration `property_double (radius, _("Blur radius"), 10.0)` with
`value_range (0.0, 2)`. -/
def radius : PropertyDouble := ⟨"radius", 10, 0, 2⟩

/-- The declaration `property_double (grow_radius, _("Grow radius"), 12.0)` with
`value_range (-100.0, 100.0)`. -/
def grow_radius : PropertyDouble := ⟨"grow-radius", 12, -100, 100⟩

/-- The declaration `property_double (opacity, _("Opacity"), 1)` with
`value_range (0.0, 2.0)`. -/
def opacity : PropertyDouble := ⟨"opacity", 1, 0, 2⟩

/-- The default of `property_enum (grow_shape, ...)`. -/
def grow_shape_default : GeglborderGrowShape := .GEGL_border_GROW_SHAPE_CIRCLE

/-- The default of `property_color (color, _("Color"), "black")`. -/
def color_default : GeglColor := gegl_color_new "black"

/-- Whether the default of a declaration lies within its `value_range`. -/
def PropertyDouble.default_in_range (p : PropertyDouble) : Prop :=
  p.value_min ≤ p.default ∧ p.default ≤ p.value_max

/-- The property values of an instance on which nothing has been set yet. -/
def default_properties : GeglProperties :=
  { radius := .finite radius.default
    grow_shape := grow_shape_default
    grow_radius := .finite grow_radius.default
    color := color_default
    opacity := .finite opacity.default
    user_data := none }

/-- Read the external property called `name`. -/
def GeglProperties.get (o : GeglProperties) (name : String) : Option GValue :=
  if name = "radius" then some (.double o.radius)
  else if name = "grow-shape" then some (.shape o.grow_shape)
  else if name = "grow-radius" then some (.double o.grow_radius)
  else if name = "color" then some (.color o.color)
  else if name = "opacity" then some (.double o.opacity)
  else none

/-- Store `v` in the external property called `name`; a name or a value type that
matches no declared property leaves the properties as they are. -/
def GeglProperties.set (o : GeglProperties) (name : String) (v : GValue) : GeglProperties :=
  match v with
  | .double d =>
    if name = "radius" then { o with radius := d }
    else if name = "grow-radius" then { o with grow_radius := d }
    else if name = "opacity" then { o with opacity := d }
    else o
  | .shape s => if name = "grow-shape" then { o with grow_shape := s } else o
  | .color c => if name = "color" then { o with color := c } else o
  | .int _ => o

/-! ## Host primitives -/

/-- Modelled from the spec: the host's node creation. The new child is appended to
the children and its handle is its index. -/
def gegl_node_new_child (gegl : GeglNode) (operation : String)
    (props : List (String × GValue)) : GeglNode × GeglNodeRef :=
  ({ gegl with children := gegl.children ++ [⟨operation, props⟩] },
   .child gegl.children.length)

/-- Modelled from the spec: the host's input proxy access. -/
def gegl_node_get_input_proxy (_gegl : GeglNode) (pad : String) : GeglNodeRef :=
  .input_proxy pad

/-- Modelled from the spec: the host's output proxy access. -/
def gegl_node_get_output_proxy (_gegl : GeglNode) (pad : String) : GeglNodeRef :=
  .output_proxy pad

/-- Whether the connection `c` enters the pad `sink_pad` of `sink`. -/
def GeglConnection.enters (c : GeglConnection) (sink : GeglNodeRef) (sink_pad : String) : Bool :=
  decide (c.sink = sink) && decide (c.sink_pad = sink_pad)

/-- Modelled from the spec: the host's connect primitive. An input pad has one
source at most: what was connected to the pad is disconnected, then the new
connection is made. -/
def gegl_node_connect_from (gegl : GeglNode) (sink : GeglNodeRef) (sink_pad : String)
    (source : GeglNodeRef) (source_pad : String) : GeglNode :=
  { gegl with
    connections :=
      gegl.connections.filter (fun c => !(c.enters sink sink_pad))
        ++ [⟨source, source_pad, sink, sink_pad⟩] }

/-- Modelled from the spec: the host's link primitive, from the pad "output" of
`source` to the pad "input" of `sink`. -/
def gegl_node_link (gegl : GeglNode) (source sink : GeglNodeRef) : GeglNode :=
  gegl_node_connect_from gegl sink "input" source "output"

/-- Modelled from the spec: the host's chain link, `source -> dest -> ...`, one
link after the other from left to right. -/
def gegl_node_link_many : GeglNode → GeglNodeRef → List GeglNodeRef → GeglNode
  | gegl, _, [] => gegl
  | gegl, source, dest :: rest => gegl_node_link_many (gegl_node_link gegl source dest) dest rest

/-- Set the entry `name` of a property list, in place when it is there already. -/
def set_property : List (String × GValue) → String → GValue → List (String × GValue)
  | [], name, v => [(name, v)]
  | (k, w) :: rest, name, v =>
    if k = name then (k, v) :: rest else (k, w) :: set_property rest name v

/-- Read the entry `name` of a property list. -/
def get_property : List (String × GValue) → String → Option GValue
  | [], _ => none
  | (k, w) :: rest, name => if k = name then some w else get_property rest name

/-- Apply `f` to the `i`-th child. -/
def modify_child (f : GeglChild → GeglChild) : List GeglChild → Nat → List GeglChild
  | [], _ => []
  | c :: rest, 0 => f c :: rest
  | c :: rest, i + 1 => c :: modify_child f rest i

/-- Modelled from the spec: the host's property setter on a node of the graph.
Proxies carry no property. -/
def gegl_node_set (gegl : GeglNode) (node : GeglNodeRef) (name : String) (v : GValue) :
    GeglNode :=
  match node with
  | .child i =>
    { gegl with
      children :=
        modify_child (fun c => { c with properties := set_property c.properties name v })
          gegl.children i }
  | _ => gegl

/-- Modelled from the spec: the host's property getter on a node of the graph. -/
def gegl_node_get (gegl : GeglNode) (node : GeglNodeRef) (name : String) : Option GValue :=
  match node with
  | .child i =>
    match gegl.children.get? i with
    | some c => get_property c.properties name
    | none => none
  | _ => none

/-- Copy the current value of the external property of a redirection to its
internal property. -/
def copy_property (operation : GeglOperation) (r : Redirect) : GeglOperation :=
  match operation.properties.get r.name with
  | some v => { operation with node := gegl_node_set operation.node r.internal r.internal_name v }
  | none => operation

/-- Modelled from the spec: the host's redirection registration. The redirection is
recorded and the current external value is carried to the internal property at once. -/
def gegl_operation_meta_redirect (operation : GeglOperation) (name : String)
    (internal : GeglNodeRef) (internal_name : String) : GeglOperation :=
  copy_property { operation with redirects := ⟨name, internal, internal_name⟩ :: operation.redirects }
    ⟨name, internal, internal_name⟩

/-- Modelled from the spec: the host's notification that the external property `name`
has changed: its value is carried along every redirection registered for it. -/
def gegl_operation_meta_property_changed (operation : GeglOperation) (name : String) :
    GeglOperation :=
  operation.redirects.foldl
    (fun op r => if r.name = name then copy_property op r else op) operation

/-! ## The operation -/

/-- The function `update_graph` of `stroke.c`. -/
def update_graph (operation : GeglOperation) : GeglOperation :=
  let o := operation.properties
  match o.user_data with
  | none => operation
  | some state =>
    if o.grow_radius.gt dbl_0_0001 then
      { operation with
        node := gegl_node_link_many operation.node state.input [state.grow, state.darken] }
    else
      { operation with
        node := gegl_node_link_many operation.node state.input [state.darken] }

/-- The nodes obtained and created by `attach`. -/
structure AttachNodes where
  gegl : GeglNode
  input : GeglNodeRef
  output : GeglNodeRef
  over : GeglNodeRef
  translate : GeglNodeRef
  opacity : GeglNodeRef
  blur : GeglNodeRef
  grow : GeglNodeRef
  darken : GeglNodeRef
  color : GeglNodeRef

/-- The first part of `attach`: the proxies and the seven `gegl_node_new_child` calls. -/
def attach_nodes (gegl : GeglNode) : AttachNodes :=
  let black_color := gegl_color_new "rgb(0.0,0.0,0.0)"
  let input := gegl_node_get_input_proxy gegl "input"
  let output := gegl_node_get_output_proxy gegl "output"
  let over := gegl_node_new_child gegl "gegl:over" []
  let translate := gegl_node_new_child over.1 "gegl:translate" []
  let opacity := gegl_node_new_child translate.1 "gegl:opacity" []
  let blur := gegl_node_new_child opacity.1 "gegl:gaussian-blur"
    [("clip-extent", .int FALSE), ("abyss-policy", .int 0)]
  let grow := gegl_node_new_child blur.1 "gegl:median-blur"
    [("percentile", .double (.finite 100)), ("alpha-percentile", .double (.finite 100)),
     ("abyss-policy", .int GEGL_ABYSS_NONE)]
  let darken := gegl_node_new_child grow.1 "gegl:src-in" []
  let color := gegl_node_new_child darken.1 "gegl:color" [("value", .color black_color)]
  { gegl := color.1, input := input, output := output, over := over.2,
    translate := translate.2, opacity := opacity.2, blur := blur.2, grow := grow.2,
    darken := darken.2, color := color.2 }

/-- The function `attach` of `stroke.c`. -/
def attach (operation : GeglOperation) : GeglOperation :=
  let n := attach_nodes operation.node
  let state : State := { input := n.input, grow := n.grow, darken := n.darken }
  let o := { operation.properties with user_data := some state }
  let gegl := gegl_node_link_many n.gegl n.input
    [n.grow, n.darken, n.blur, n.opacity, n.translate, n.over, n.output]
  let gegl := gegl_node_connect_from gegl n.over "aux" n.input "output"
  let gegl := gegl_node_connect_from gegl n.darken "aux" n.color "output"
  let operation := { operation with properties := o, node := gegl }
  let operation := gegl_operation_meta_redirect operation "grow-shape" n.grow "neighborhood"
  let operation := gegl_operation_meta_redirect operation "grow-radius" n.grow "radius"
  let operation := gegl_operation_meta_redirect operation "radius" n.blur "std-dev-x"
  let operation := gegl_operation_meta_redirect operation "radius" n.blur "std-dev-y"
  let operation := gegl_operation_meta_redirect operation "color" n.color "value"
  let operation := gegl_operation_meta_redirect operation "opacity" n.opacity "value"
  operation

/-- The function `dispose` of `stroke.c`: `g_clear_pointer (&o->user_data, g_free)`. -/
def dispose (operation : GeglOperation) : GeglOperation :=
  { operation with properties := { operation.properties with user_data := none } }

/-- Modelled from the spec: the host sets the external property `name` of an
instance: the value is stored, carried along the redirections, and the `update`
method of the class, which `gegl_op_class_init` sets to `update_graph`, is invoked. -/
def gegl_operation_set (operation : GeglOperation) (name : String) (v : GValue) :
    GeglOperation :=
  update_graph
    (gegl_operation_meta_property_changed
      { operation with properties := operation.properties.set name v } name)

/-- A freshly constructed instance with the property values `o`: no child, no
connection, no redirection, no state. -/
def gegl_operation_new (o : GeglProperties) : GeglOperation :=
  { properties := { o with user_data := none }
    node := { children := [], connections := [] }
    redirects := [] }

/-- The source connected to the pad `sink_pad` of `sink`, when there is one. -/
def source_of (gegl : GeglNode) (sink : GeglNodeRef) (sink_pad : String) : Option GeglNodeRef :=
  (gegl.connections.find? (fun c => c.enters sink sink_pad)).map (fun c => c.source)

/-- A node handle designates a node of the graph: a proxy, or a child that exists. -/
def valid_ref (gegl : GeglNode) : GeglNodeRef → Prop
  | .child i => i < gegl.children.length
  | _ => True

/-- No connection dangles: both ends of every connection are nodes of the graph. -/
def no_dangling (gegl : GeglNode) : Prop :=
  ∀ c ∈ gegl.connections, valid_ref gegl c.source ∧ valid_ref gegl c.sink

/-- No input pad is connected to more than one source. -/
def unique_sources (gegl : GeglNode) : Prop :=
  ∀ (sink : GeglNodeRef) (sink_pad : String),
    (gegl.connections.filter (fun c => c.enters sink sink_pad)).length ≤ 1

/-- The instances the host can hold once `attach` has run: `attach` runs on a freshly
constructed instance, and from then on the host sets properties and invokes the
`update` method. -/
inductive Attached : GeglOperation → Prop where
  | attach (o : GeglProperties) : Attached (attach (gegl_operation_new o))
  | set (op : GeglOperation) (name : String) (v : GValue) :
      Attached op → Attached (gegl_operation_set op name v)
  | update (op : GeglOperation) : Attached op → Attached (update_graph op)

/-- The connections made by `attach` that enter neither the primary input of the
grow node nor that of the darken node, with the handles a fresh graph gives. -/
def fixed_connections : List GeglConnection :=
  [⟨.child 5, "output", .child 3, "input"⟩,
   ⟨.child 3, "output", .child 2, "input"⟩,
   ⟨.child 2, "output", .child 1, "input"⟩,
   ⟨.child 1, "output", .child 0, "input"⟩,
   ⟨.child 0, "output", .output_proxy "output", "input"⟩,
   ⟨.input_proxy "input", "output", .child 0, "aux"⟩,
   ⟨.child 6, "output", .child 5, "aux"⟩]

/-- The link from the input proxy to the grow node. -/
def input_to_grow : GeglConnection := ⟨.input_proxy "input", "output", .child 4, "input"⟩

/-- The link from the grow node to the darken node. -/
def grow_to_darken : GeglConnection := ⟨.child 4, "output", .child 5, "input"⟩

/-- The link from the input proxy to the darken node. -/
def input_to_darken : GeglConnection := ⟨.input_proxy "input", "output", .child 5, "input"⟩

/-- The shape every attached instance has: the seven children with the property
values `o` carried to them, the six redirections, and the connections `conns`. -/
def wired (o : GeglProperties) (conns : List GeglConnection) : GeglOperation :=
  { properties :=
      { o with user_data := some ⟨.input_proxy "input", .child 4, .child 5⟩ }
    node :=
      { children :=
          [⟨"gegl:over", []⟩,
           ⟨"gegl:translate", []⟩,
           ⟨"gegl:opacity", [("value", .double o.opacity)]⟩,
           ⟨"gegl:gaussian-blur",
             [("clip-extent", .int FALSE), ("abyss-policy", .int 0),
              ("std-dev-x", .double o.radius), ("std-dev-y", .double o.radius)]⟩,
           ⟨"gegl:median-blur",
             [("percentile", .double (.finite 100)), ("alpha-percentile", .double (.finite 100)),
              ("abyss-policy", .int GEGL_ABYSS_NONE), ("neighborhood", .shape o.grow_shape),
              ("radius", .double o.grow_radius)]⟩,
           ⟨"gegl:src-in", []⟩,
           ⟨"gegl:color", [("value", .color o.color)]⟩]
        connections := conns }
    redirects :=
      [⟨"opacity", .child 2, "value"⟩,
       ⟨"color", .child 6, "value"⟩,
       ⟨"radius", .child 3, "std-dev-y"⟩,
       ⟨"radius", .child 3, "std-dev-x"⟩,
       ⟨"grow-radius", .child 4, "radius"⟩,
       ⟨"grow-shape", .child 4, "neighborhood"⟩] }

/-- The four connection lists an attached instance can have: as `attach` leaves
them, and after an update in either branch. -/
def wirings : List (List GeglConnection) :=
  [input_to_grow :: grow_to_darken :: fixed_connections,
   fixed_connections ++ [input_to_grow, grow_to_darken],
   input_to_grow :: (fixed_connections ++ [input_to_darken]),
   fixed_connections ++ [input_to_grow, input_to_darken]]

/-- The graph whose connections are made as `attach` makes them, on no child. -/
def attach_links : GeglNode :=
  gegl_node_connect_from
    (gegl_node_connect_from
      (gegl_node_link_many ⟨[], []⟩ (.input_proxy "input")
        [.child 4, .child 5, .child 3, .child 2, .child 1, .child 0, .output_proxy "output"])
      (.child 0) "aux" (.input_proxy "input") "output")
    (.child 5) "aux" (.child 6) "output"

/-- The C constant `TRUE`. -/
def TRUE : Int := 1

/-- The default property values but for a grow radius of -5.0. -/
def shrink_properties : GeglProperties :=
  { default_properties with grow_radius := .finite (-5) }

/-! ## Lemmas -/

theorem attach_new_eq (o : GeglProperties) :
    attach (gegl_operation_new o)
      = wired o (input_to_grow :: grow_to_darken :: fixed_connections) := by
  simp [attach, attach_nodes, gegl_operation_new, gegl_node_link_many, gegl_node_link,
    gegl_node_connect_from, gegl_node_new_child, gegl_operation_meta_redirect, copy_property,
    GeglProperties.get, gegl_node_set, modify_child, set_property, gegl_node_get_input_proxy,
    gegl_node_get_output_proxy, GeglConnection.enters, wired, fixed_connections, input_to_grow,
    grow_to_darken]

theorem update_graph_wired (o : GeglProperties) (c : List GeglConnection) (hc : c ∈ wirings) :
    update_graph (wired o c)
      = wired o (if o.grow_radius.gt dbl_0_0001
          then fixed_connections ++ [input_to_grow, grow_to_darken]
          else (if c = wirings.get! 0 ∨ c = wirings.get! 2
            then input_to_grow :: (fixed_connections ++ [input_to_darken])
            else fixed_connections ++ [input_to_grow, input_to_darken])) := by
  simp only [wirings, List.mem_cons, List.mem_singleton, List.not_mem_nil, or_false] at hc
  rcases hc with rfl | rfl | rfl | rfl <;>
  cases hg : o.grow_radius.gt dbl_0_0001 <;>
  simp [update_graph, wired, hg, gegl_node_link_many, gegl_node_link, gegl_node_connect_from,
    GeglConnection.enters, fixed_connections, input_to_grow, grow_to_darken, input_to_darken,
    wirings]

theorem update_graph_wired_mem (o : GeglProperties) (c : List GeglConnection) (hc : c ∈ wirings) :
    ∃ c2, c2 ∈ wirings ∧ update_graph (wired o c) = wired o c2 := by
  refine ⟨_, ?_, update_graph_wired o c hc⟩
  split_ifs <;> simp [wirings]

theorem property_changed_wired (o : GeglProperties) (c : List GeglConnection) (name : String)
    (v : GValue) :
    gegl_operation_meta_property_changed
        { wired o c with properties := (wired o c).properties.set name v } name
      = wired (o.set name v) c := by
  by_cases h1 : name = "radius"
  · subst h1
    cases v <;>
    simp [gegl_operation_meta_property_changed, wired, GeglProperties.set, copy_property,
      GeglProperties.get, gegl_node_set, modify_child, set_property]
  by_cases h2 : name = "grow-radius"
  · subst h2
    cases v <;>
    simp [gegl_operation_meta_property_changed, wired, GeglProperties.set, copy_property,
      GeglProperties.get, gegl_node_set, modify_child, set_property]
  by_cases h3 : name = "opacity"
  · subst h3
    cases v <;>
    simp [gegl_operation_meta_property_changed, wired, GeglProperties.set, copy_property,
      GeglProperties.get, gegl_node_set, modify_child, set_property]
  by_cases h4 : name = "grow-shape"
  · subst h4
    cases v <;>
    simp [gegl_operation_meta_property_changed, wired, GeglProperties.set, copy_property,
      GeglProperties.get, gegl_node_set, modify_child, set_property]
  by_cases h5 : name = "color"
  · subst h5
    cases v <;>
    simp [gegl_operation_meta_property_changed, wired, GeglProperties.set, copy_property,
      GeglProperties.get, gegl_node_set, modify_child, set_property]
  have e1 : ¬ "radius" = name := fun h => h1 h.symm
  have e2 : ¬ "grow-radius" = name := fun h => h2 h.symm
  have e3 : ¬ "opacity" = name := fun h => h3 h.symm
  have e4 : ¬ "grow-shape" = name := fun h => h4 h.symm
  have e5 : ¬ "color" = name := fun h => h5 h.symm
  cases v <;>
  simp [gegl_operation_meta_property_changed, wired, GeglProperties.set, copy_property,
    GeglProperties.get, gegl_node_set, modify_child, set_property, h1, h2, h3, h4, h5,
    e1, e2, e3, e4, e5]

theorem attached_wired (op : GeglOperation) (h : Attached op) :
    ∃ o c, c ∈ wirings ∧ op = wired o c := by
  induction h with
  | attach o => exact ⟨o, _, by simp [wirings], attach_new_eq o⟩
  | set op name v _ ih =>
    obtain ⟨o, c, hc, rfl⟩ := ih
    obtain ⟨c2, hc2, e⟩ := update_graph_wired_mem (o.set name v) c hc
    exact ⟨o.set name v, c2, hc2, by rw [gegl_operation_set, property_changed_wired, e]⟩
  | update op _ ih =>
    obtain ⟨o, c, hc, rfl⟩ := ih
    obtain ⟨c2, hc2, e⟩ := update_graph_wired_mem o c hc
    exact ⟨o, c2, hc2, e⟩

theorem mem_connect_from (gegl : GeglNode) (sink : GeglNodeRef) (pad : String)
    (source : GeglNodeRef) (sp : String) (c : GeglConnection) :
    c ∈ (gegl_node_connect_from gegl sink pad source sp).connections ↔
      (c ∈ gegl.connections ∧ c.enters sink pad = false) ∨ c = ⟨source, sp, sink, pad⟩ := by
  simp [gegl_node_connect_from, List.mem_filter]

theorem find_enters_filter (l : List GeglConnection) (s : GeglNodeRef) (p : String) :
    (l.filter (fun c => !(c.enters s p))).find? (fun c => c.enters s p) = none := by
  simp [List.find?_eq_none, List.mem_filter]

theorem source_of_connect_from_same (gegl : GeglNode) (sink : GeglNodeRef) (pad : String)
    (source : GeglNodeRef) (sp : String) :
    source_of (gegl_node_connect_from gegl sink pad source sp) sink pad = some source := by
  have hnew : (⟨source, sp, sink, pad⟩ : GeglConnection).enters sink pad = true := by
    simp [GeglConnection.enters]
  simp only [source_of, gegl_node_connect_from, List.find?_append, find_enters_filter,
    Option.none_or]
  simp [List.find?_cons, hnew]

theorem source_of_connect_from_other (gegl : GeglNode) (sink : GeglNodeRef) (pad : String)
    (source : GeglNodeRef) (sp : String) (s : GeglNodeRef) (p : String)
    (h : ¬ (sink = s ∧ pad = p)) :
    source_of (gegl_node_connect_from gegl sink pad source sp) s p = source_of gegl s p := by
  have hnew : (⟨source, sp, sink, pad⟩ : GeglConnection).enters s p = false := by
    simp only [GeglConnection.enters, Bool.and_eq_false_iff, decide_eq_false_iff_not]
    by_cases h1 : sink = s
    · right; exact fun h2 => h ⟨h1, h2⟩
    · left; exact h1
  have hfind : ∀ l : List GeglConnection,
      (l.filter (fun c => !(c.enters sink pad))).find? (fun c => c.enters s p)
        = l.find? (fun c => c.enters s p) := by
    intro l
    induction l with
    | nil => rfl
    | cons a l ih =>
      by_cases ha : a.enters s p = true
      · have hb : a.enters sink pad = false := by
          simp only [GeglConnection.enters, Bool.and_eq_true, decide_eq_true_eq] at ha
          simp only [GeglConnection.enters, Bool.and_eq_false_iff, decide_eq_false_iff_not]
          by_cases h1 : a.sink = sink
          · right; intro h2; exact h ⟨h1 ▸ ha.1, h2 ▸ ha.2⟩
          · left; exact h1
        simp [List.filter_cons, hb, ha]
      · by_cases hb : a.enters sink pad = true
        · simp [List.filter_cons, hb, ha, ih]
        · simp [List.filter_cons, hb, ha, ih]
  simp [source_of, gegl_node_connect_from, List.find?_append, hfind, hnew]

theorem connect_from_idem (gegl : GeglNode) (sink : GeglNodeRef) (pad : String)
    (source : GeglNodeRef) (sp : String) :
    gegl_node_connect_from (gegl_node_connect_from gegl sink pad source sp) sink pad source sp
      = gegl_node_connect_from gegl sink pad source sp := by
  simp [gegl_node_connect_from, List.filter_append, List.filter_filter, GeglConnection.enters]

theorem filter_twice {α : Type} (p q : α → Bool) (l : List α) :
    (((l.filter q).filter p).filter q).filter p = (l.filter q).filter p := by
  simp only [List.filter_filter]
  apply List.filter_congr
  intro x _
  cases p x <;> cases q x <;> rfl

theorem link_pair_idem (gegl : GeglNode) (i g d : GeglNodeRef) :
    gegl_node_link_many (gegl_node_link_many gegl i [g, d]) i [g, d]
      = gegl_node_link_many gegl i [g, d] := by
  have key := filter_twice (fun c : GeglConnection => !(c.enters d "input"))
    (fun c : GeglConnection => !(c.enters g "input")) gegl.connections
  by_cases hgd : g = d
  · subst hgd
    simp [gegl_node_link_many, gegl_node_link, gegl_node_connect_from, List.filter_append,
      List.filter_filter, GeglConnection.enters]
  · have hdg : ¬ d = g := fun h => hgd h.symm
    simp only [gegl_node_link_many, gegl_node_link, gegl_node_connect_from]
    simp only [List.filter_append, List.filter_cons, List.filter_nil, GeglConnection.enters,
      decide_True, decide_False, hgd, hdg, Bool.and_true, Bool.false_and, Bool.not_true,
      Bool.not_false, if_true, if_false, Bool.true_and, List.append_nil, List.nil_append,
      Bool.false_eq_true, List.append_assoc, List.singleton_append]
    simp only [GeglConnection.enters] at key
    rw [key]

theorem update_graph_idem (op : GeglOperation) : update_graph (update_graph op) = update_graph op := by
  cases hu : op.properties.user_data with
  | none => simp [update_graph, hu]
  | some st =>
    cases hg : op.properties.grow_radius.gt dbl_0_0001 with
    | true =>
      simp [update_graph, hu, hg, link_pair_idem]
    | false =>
      simp [update_graph, hu, hg, gegl_node_link_many, gegl_node_link, connect_from_idem]

theorem unique_sources_connect_from (gegl : GeglNode) (sink : GeglNodeRef) (pad : String)
    (source : GeglNodeRef) (sp : String) (h : unique_sources gegl) :
    unique_sources (gegl_node_connect_from gegl sink pad source sp) := by
  intro s p
  by_cases hsp : sink = s ∧ pad = p
  · obtain ⟨rfl, rfl⟩ := hsp
    have hnone : ((gegl.connections.filter (fun c => !(c.enters sink pad))).filter
        (fun c => c.enters sink pad)) = [] := by
      simp [List.filter_filter, List.filter_eq_nil_iff]
    simp only [gegl_node_connect_from, List.filter_append, hnone, List.nil_append]
    exact (List.length_filter_le _ _)
  · have hnew : (⟨source, sp, sink, pad⟩ : GeglConnection).enters s p = false := by
      simp only [GeglConnection.enters, Bool.and_eq_false_iff, decide_eq_false_iff_not]
      by_cases h1 : sink = s
      · right; exact fun h2 => hsp ⟨h1, h2⟩
      · left; exact h1
    have hle : ((gegl.connections.filter (fun c => !(c.enters sink pad))).filter
        (fun c => c.enters s p)).length
          ≤ (gegl.connections.filter (fun c => c.enters s p)).length := by
      have e : (gegl.connections.filter (fun c => !(c.enters sink pad))).filter
          (fun c => c.enters s p)
            = (gegl.connections.filter (fun c => c.enters s p)).filter
                (fun c => !(c.enters sink pad)) := by
        simp only [List.filter_filter]
        apply List.filter_congr
        intro x _
        exact Bool.and_comm _ _
      rw [e]
      exact List.length_filter_le _ _
    simp only [gegl_node_connect_from, List.filter_append, List.filter_cons, hnew,
      List.filter_nil, List.append_nil, Bool.false_eq_true, if_false]
    exact le_trans hle (h s p)

theorem valid_ref_connect_from (gegl : GeglNode) (sink : GeglNodeRef) (pad : String)
    (source : GeglNodeRef) (sp : String) (r : GeglNodeRef) :
    valid_ref (gegl_node_connect_from gegl sink pad source sp) r ↔ valid_ref gegl r := by
  cases r <;> simp [valid_ref, gegl_node_connect_from]

theorem no_dangling_connect_from (gegl : GeglNode) (sink : GeglNodeRef) (pad : String)
    (source : GeglNodeRef) (sp : String) (h : no_dangling gegl)
    (hsource : valid_ref gegl source) (hsink : valid_ref gegl sink) :
    no_dangling (gegl_node_connect_from gegl sink pad source sp) := by
  intro c hc
  rw [mem_connect_from] at hc
  simp only [valid_ref_connect_from]
  rcases hc with ⟨hc, _⟩ | rfl
  · exact h c hc
  · exact ⟨hsource, hsink⟩

theorem update_graph_node (op : GeglOperation) (st : State)
    (hst : op.properties.user_data = some st) :
    (update_graph op).node =
      if op.properties.grow_radius.gt dbl_0_0001 then
        gegl_node_connect_from
          (gegl_node_connect_from op.node st.grow "input" st.input "output")
          st.darken "input" st.grow "output"
      else gegl_node_connect_from op.node st.darken "input" st.input "output" := by
  cases hg : op.properties.grow_radius.gt dbl_0_0001 <;>
  simp [update_graph, hst, hg, gegl_node_link_many, gegl_node_link]

theorem update_graph_frame (op : GeglOperation) :
    (update_graph op).properties = op.properties ∧
    (update_graph op).redirects = op.redirects ∧
    (update_graph op).node.children = op.node.children := by
  cases hu : op.properties.user_data with
  | none => simp [update_graph, hu]
  | some st =>
    cases hg : op.properties.grow_radius.gt dbl_0_0001 <;>
    simp [update_graph, hu, hg, gegl_node_link_many, gegl_node_link, gegl_node_connect_from]

theorem update_graph_well_formed (op : GeglOperation) (st : State)
    (hst : op.properties.user_data = some st)
    (hu : unique_sources op.node) (hd : no_dangling op.node)
    (hi : valid_ref op.node st.input) (hg : valid_ref op.node st.grow)
    (hk : valid_ref op.node st.darken) :
    unique_sources (update_graph op).node ∧ no_dangling (update_graph op).node := by
  rw [update_graph_node op st hst]
  split_ifs
  · refine ⟨unique_sources_connect_from _ _ _ _ _ (unique_sources_connect_from _ _ _ _ _ hu),
      no_dangling_connect_from _ _ _ _ _ (no_dangling_connect_from _ _ _ _ _ hd hi hg) ?_ ?_⟩
    · exact (valid_ref_connect_from _ _ _ _ _ _).2 hg
    · exact (valid_ref_connect_from _ _ _ _ _ _).2 hk
  · exact ⟨unique_sources_connect_from _ _ _ _ _ hu, no_dangling_connect_from _ _ _ _ _ hd hi hk⟩

theorem update_graph_other_connections (op : GeglOperation) (st : State)
    (hst : op.properties.user_data = some st)
    (hin : (⟨st.input, "output", st.grow, "input"⟩ : GeglConnection) ∈ op.node.connections)
    (honly : ∀ c ∈ op.node.connections, c.enters st.grow "input" = true →
      c = ⟨st.input, "output", st.grow, "input"⟩)
    (c : GeglConnection) (hc : c.enters st.darken "input" = false) :
    c ∈ (update_graph op).node.connections ↔ c ∈ op.node.connections := by
  rw [update_graph_node op st hst]
  split_ifs
  · rw [mem_connect_from, mem_connect_from]
    constructor
    · rintro (⟨⟨h1, _⟩ | rfl, _⟩ | rfl)
      · exact h1
      · exact hin
      · simp [GeglConnection.enters] at hc
    · intro h
      left
      refine ⟨?_, hc⟩
      by_cases hg : c.enters st.grow "input" = true
      · right; exact honly c h hg
      · left; exact ⟨h, by simpa using hg⟩
  · rw [mem_connect_from]
    constructor
    · rintro (⟨h1, _⟩ | rfl)
      · exact h1
      · simp [GeglConnection.enters] at hc
    · intro h
      exact Or.inl ⟨h, hc⟩

theorem unique_sources_link_many (l : List GeglNodeRef) :
    ∀ (gegl : GeglNode) (source : GeglNodeRef), unique_sources gegl →
      unique_sources (gegl_node_link_many gegl source l) := by
  induction l with
  | nil => intro gegl source h; exact h
  | cons d rest ih =>
    intro gegl source h
    exact ih _ d (unique_sources_connect_from _ _ _ _ _ h)

theorem unique_sources_congr (g1 g2 : GeglNode) (h : g1.connections = g2.connections)
    (hu : unique_sources g1) : unique_sources g2 := by
  intro s p
  rw [← h]
  exact hu s p

theorem unique_sources_attach_links : unique_sources attach_links := by
  apply unique_sources_connect_from
  apply unique_sources_connect_from
  apply unique_sources_link_many
  intro s p
  simp

theorem wired_unique_sources (o : GeglProperties) (c : List GeglConnection) (hc : c ∈ wirings) :
    unique_sources (wired o c).node := by
  simp only [wirings, List.mem_cons, List.mem_singleton, List.not_mem_nil, or_false] at hc
  have h0 := unique_sources_attach_links
  have h1 := unique_sources_link_many [.child 4, .child 5] _ (.input_proxy "input") h0
  have h2 := unique_sources_link_many [.child 5] _ (.input_proxy "input") h0
  have h3 := unique_sources_link_many [.child 5] _ (.input_proxy "input") h1
  rcases hc with rfl | rfl | rfl | rfl
  · refine unique_sources_congr _ _ ?_ h0
    simp [attach_links, wired, gegl_node_link_many, gegl_node_link, gegl_node_connect_from,
      GeglConnection.enters, fixed_connections, input_to_grow, grow_to_darken]
  · refine unique_sources_congr _ _ ?_ h1
    simp [attach_links, wired, gegl_node_link_many, gegl_node_link, gegl_node_connect_from,
      GeglConnection.enters, fixed_connections, input_to_grow, grow_to_darken]
  · refine unique_sources_congr _ _ ?_ h2
    simp [attach_links, wired, gegl_node_link_many, gegl_node_link, gegl_node_connect_from,
      GeglConnection.enters, fixed_connections, input_to_grow, input_to_darken]
  · refine unique_sources_congr _ _ ?_ h3
    simp [attach_links, wired, gegl_node_link_many, gegl_node_link, gegl_node_connect_from,
      GeglConnection.enters, fixed_connections, input_to_grow, input_to_darken]

theorem wired_well_formed (o : GeglProperties) (c : List GeglConnection) (hc : c ∈ wirings) :
    no_dangling (wired o c).node
      ∧ (⟨.input_proxy "input", "output", .child 4, "input"⟩ : GeglConnection) ∈ c
      ∧ (∀ x ∈ c, x.enters (.child 4) "input" = true →
          x = ⟨.input_proxy "input", "output", .child 4, "input"⟩) := by
  simp only [wirings, List.mem_cons, List.mem_singleton, List.not_mem_nil, or_false] at hc
  refine ⟨?_, ?_, ?_⟩
  · rcases hc with rfl | rfl | rfl | rfl <;>
    simp [no_dangling, wired, fixed_connections, input_to_grow, grow_to_darken, input_to_darken,
      valid_ref]
  · rcases hc with rfl | rfl | rfl | rfl <;>
    simp [fixed_connections, input_to_grow, grow_to_darken, input_to_darken]
  · rcases hc with rfl | rfl | rfl | rfl <;>
    simp [fixed_connections, input_to_grow, grow_to_darken, input_to_darken,
      GeglConnection.enters]

theorem iterate_update_graph (n : Nat) :
    ∀ op : GeglOperation, update_graph^[n + 1] op = update_graph op := by
  induction n with
  | zero => intro op; rfl
  | succ k ih =>
    intro op
    rw [Function.iterate_succ, Function.comp_apply, ih, update_graph_idem]

theorem attach_nodes_new (o : GeglProperties) :
    (attach_nodes (gegl_operation_new o).node).input = .input_proxy "input" ∧
    (attach_nodes (gegl_operation_new o).node).output = .output_proxy "output" ∧
    (attach_nodes (gegl_operation_new o).node).over = .child 0 ∧
    (attach_nodes (gegl_operation_new o).node).translate = .child 1 ∧
    (attach_nodes (gegl_operation_new o).node).opacity = .child 2 ∧
    (attach_nodes (gegl_operation_new o).node).blur = .child 3 ∧
    (attach_nodes (gegl_operation_new o).node).grow = .child 4 ∧
    (attach_nodes (gegl_operation_new o).node).darken = .child 5 ∧
    (attach_nodes (gegl_operation_new o).node).color = .child 6 := by
  simp [attach_nodes, gegl_operation_new, gegl_node_new_child, gegl_node_get_input_proxy,
    gegl_node_get_output_proxy]

theorem gt_shrink : shrink_properties.grow_radius.gt dbl_0_0001 = false := by
  norm_num [shrink_properties, GDouble.gt, dbl_0_0001]

theorem gt_default : default_properties.grow_radius.gt dbl_0_0001 = true := by
  norm_num [default_properties, grow_radius, GDouble.gt, dbl_0_0001]

/-! ## The claims -/

/-- C1, as stated, fails: with grow-radius -5.0 and no `update_graph` call (n = 0),
`attach` leaves the grow node on the primary input of the darken node, whereas the
claim asks for the input proxy since -5.0 > 0.0001 is false. -/
theorem attach_alone_keeps_grow :
    ¬ (source_of (update_graph^[0] (attach (gegl_operation_new shrink_properties))).node
          (attach_nodes (gegl_operation_new shrink_properties).node).darken "input"
        = some (if shrink_properties.grow_radius.gt dbl_0_0001
            then (attach_nodes (gegl_operation_new shrink_properties).node).grow
            else (attach_nodes (gegl_operation_new shrink_properties).node).input)) := by
  obtain ⟨hi, _, _, _, _, _, hg, hd, _⟩ := attach_nodes_new shrink_properties
  rw [hi, hg, hd, gt_shrink, Function.iterate_zero, id_eq, attach_new_eq]
  simp [source_of, wired, GeglConnection.enters, input_to_grow, grow_to_darken,
    fixed_connections]

/-- C1, amended: after `attach` and at least one `update_graph` call with the same
grow-radius g, the primary input of the darken node comes from the grow node when
g > 0.0001 and from the input proxy otherwise; after `attach` alone it comes from the
grow node whatever g is. -/
theorem attach_then_updates_topology (o : GeglProperties) (n : Nat) :
    source_of (update_graph^[n + 1] (attach (gegl_operation_new o))).node
        (attach_nodes (gegl_operation_new o).node).darken "input"
      = some (if o.grow_radius.gt dbl_0_0001
          then (attach_nodes (gegl_operation_new o).node).grow
          else (attach_nodes (gegl_operation_new o).node).input)
    ∧ source_of (attach (gegl_operation_new o)).node
        (attach_nodes (gegl_operation_new o).node).darken "input"
      = some (attach_nodes (gegl_operation_new o).node).grow := by
  obtain ⟨hi, _, _, _, _, _, hg, hd, _⟩ := attach_nodes_new o
  rw [hi, hg, hd, iterate_update_graph, attach_new_eq]
  constructor
  · rw [update_graph_node _ ⟨.input_proxy "input", .child 4, .child 5⟩ rfl]
    have e : (wired o (input_to_grow :: grow_to_darken :: fixed_connections)).properties.grow_radius
        = o.grow_radius := rfl
    rw [e]
    split_ifs <;> exact source_of_connect_from_same _ _ _ _ _
  · simp [source_of, wired, GeglConnection.enters, input_to_grow, grow_to_darken,
      fixed_connections]

/-- C2 at grow-radius -5.0: after `attach` and `update_graph` the grow node holds the
radius -5.0, yet the darken node is fed by the input proxy directly and no connection
leaves the grow node, so the shrink is not applied. -/
theorem negative_grow_radius_bypasses_grow :
    gegl_node_get (update_graph (attach (gegl_operation_new shrink_properties))).node
        (attach_nodes (gegl_operation_new shrink_properties).node).grow "radius"
      = some (.double (.finite (-5)))
    ∧ source_of (update_graph (attach (gegl_operation_new shrink_properties))).node
        (attach_nodes (gegl_operation_new shrink_properties).node).darken "input"
      = some (attach_nodes (gegl_operation_new shrink_properties).node).input
    ∧ ∀ c ∈ (update_graph (attach (gegl_operation_new shrink_properties))).node.connections,
        c.source ≠ (attach_nodes (gegl_operation_new shrink_properties).node).grow := by
  obtain ⟨hi, _, _, _, _, _, hg, hd, _⟩ := attach_nodes_new shrink_properties
  rw [hi, hg, hd, attach_new_eq, update_graph_wired _ _ (by simp [wirings]), gt_shrink]
  refine ⟨?_, ?_, ?_⟩
  · simp [gegl_node_get, wired, get_property, shrink_properties]
  · simp [source_of, wired, wirings, GeglConnection.enters, input_to_grow, input_to_darken,
      fixed_connections]
  · simp [wired, wirings, input_to_grow, input_to_darken, fixed_connections]

/-- C10 on the declarations: the default 10.0 of `radius` lies outside its
`value_range (0.0, 2)`, while the defaults of `grow_radius` and `opacity` lie within
their ranges. -/
theorem radius_default_outside_value_range :
    ¬ radius.default_in_range ∧ grow_radius.default_in_range ∧ opacity.default_in_range := by
  norm_num [PropertyDouble.default_in_range, radius, grow_radius, opacity]

/-- C7: when the state is absent, `update_graph` returns the instance unchanged
(properties, node, redirections); and `dispose` leaves an instance in that case. -/
theorem update_graph_without_state (op : GeglOperation)
    (h : op.properties.user_data = none) :
    update_graph op = op
    ∧ (∀ op2 : GeglOperation, (dispose op2).properties.user_data = none
        ∧ update_graph (dispose op2) = dispose op2) := by
  refine ⟨by simp [update_graph, h], fun op2 => ⟨rfl, by simp [update_graph, dispose]⟩⟩

/-- C7 witness: a freshly constructed instance, on which `attach` has not run. -/
theorem update_graph_without_state_witness :
    (gegl_operation_new default_properties).properties.user_data = none
    ∧ update_graph (gegl_operation_new default_properties)
        = gegl_operation_new default_properties :=
  ⟨rfl, (update_graph_without_state (gegl_operation_new default_properties) rfl).1⟩

theorem le_not_gt (g : GDouble) (h : g.le dbl_0_0001 = true) : g.gt dbl_0_0001 = false := by
  cases g <;> simp_all [GDouble.le, GDouble.gt, dbl_0_0001]

/-- C3: on an instance whose grow-radius g exceeds 0.0001, `attach` then `update_graph`
give the primary chain input -> grow -> darken -> blur -> opacity -> translate -> over ->
output, with the colour source on darken's aux pad and the input proxy on over's aux pad;
setting grow-radius to any g2 <= 0.0001 (the host then invokes `update_graph`) gives the
chain input -> darken -> blur -> opacity -> translate -> over -> output with the same aux
inputs, the grow node still being a child of the graph and no connection leaving it. -/
theorem end_to_end_topology (o : GeglProperties) (g2 : GDouble)
    (hg : o.grow_radius.gt dbl_0_0001 = true) (hg2 : g2.le dbl_0_0001 = true) :
    (source_of (update_graph (attach (gegl_operation_new o))).node
        (attach_nodes (gegl_operation_new o).node).grow "input"
      = some (attach_nodes (gegl_operation_new o).node).input
    ∧ source_of (update_graph (attach (gegl_operation_new o))).node
        (attach_nodes (gegl_operation_new o).node).darken "input"
      = some (attach_nodes (gegl_operation_new o).node).grow
    ∧ source_of (update_graph (attach (gegl_operation_new o))).node
        (attach_nodes (gegl_operation_new o).node).blur "input"
      = some (attach_nodes (gegl_operation_new o).node).darken
    ∧ source_of (update_graph (attach (gegl_operation_new o))).node
        (attach_nodes (gegl_operation_new o).node).opacity "input"
      = some (attach_nodes (gegl_operation_new o).node).blur
    ∧ source_of (update_graph (attach (gegl_operation_new o))).node
        (attach_nodes (gegl_operation_new o).node).translate "input"
      = some (attach_nodes (gegl_operation_new o).node).opacity
    ∧ source_of (update_graph (attach (gegl_operation_new o))).node
        (attach_nodes (gegl_operation_new o).node).over "input"
      = some (attach_nodes (gegl_operation_new o).node).translate
    ∧ source_of (update_graph (attach (gegl_operation_new o))).node
        (attach_nodes (gegl_operation_new o).node).output "input"
      = some (attach_nodes (gegl_operation_new o).node).over
    ∧ source_of (update_graph (attach (gegl_operation_new o))).node
        (attach_nodes (gegl_operation_new o).node).darken "aux"
      = some (attach_nodes (gegl_operation_new o).node).color
    ∧ source_of (update_graph (attach (gegl_operation_new o))).node
        (attach_nodes (gegl_operation_new o).node).over "aux"
      = some (attach_nodes (gegl_operation_new o).node).input)
    ∧
    (source_of (gegl_operation_set (update_graph (attach (gegl_operation_new o)))
          "grow-radius" (.double g2)).node
        (attach_nodes (gegl_operation_new o).node).darken "input"
      = some (attach_nodes (gegl_operation_new o).node).input
    ∧ source_of (gegl_operation_set (update_graph (attach (gegl_operation_new o)))
          "grow-radius" (.double g2)).node
        (attach_nodes (gegl_operation_new o).node).blur "input"
      = some (attach_nodes (gegl_operation_new o).node).darken
    ∧ source_of (gegl_operation_set (update_graph (attach (gegl_operation_new o)))
          "grow-radius" (.double g2)).node
        (attach_nodes (gegl_operation_new o).node).opacity "input"
      = some (attach_nodes (gegl_operation_new o).node).blur
    ∧ source_of (gegl_operation_set (update_graph (attach (gegl_operation_new o)))
          "grow-radius" (.double g2)).node
        (attach_nodes (gegl_operation_new o).node).translate "input"
      = some (attach_nodes (gegl_operation_new o).node).opacity
    ∧ source_of (gegl_operation_set (update_graph (attach (gegl_operation_new o)))
          "grow-radius" (.double g2)).node
        (attach_nodes (gegl_operation_new o).node).over "input"
      = some (attach_nodes (gegl_operation_new o).node).translate
    ∧ source_of (gegl_operation_set (update_graph (attach (gegl_operation_new o)))
          "grow-radius" (.double g2)).node
        (attach_nodes (gegl_operation_new o).node).output "input"
      = some (attach_nodes (gegl_operation_new o).node).over
    ∧ source_of (gegl_operation_set (update_graph (attach (gegl_operation_new o)))
          "grow-radius" (.double g2)).node
        (attach_nodes (gegl_operation_new o).node).darken "aux"
      = some (attach_nodes (gegl_operation_new o).node).color
    ∧ source_of (gegl_operation_set (update_graph (attach (gegl_operation_new o)))
          "grow-radius" (.double g2)).node
        (attach_nodes (gegl_operation_new o).node).over "aux"
      = some (attach_nodes (gegl_operation_new o).node).input
    ∧ valid_ref (gegl_operation_set (update_graph (attach (gegl_operation_new o)))
          "grow-radius" (.double g2)).node
        (attach_nodes (gegl_operation_new o).node).grow
    ∧ ∀ c ∈ (gegl_operation_set (update_graph (attach (gegl_operation_new o)))
          "grow-radius" (.double g2)).node.connections,
        c.source ≠ (attach_nodes (gegl_operation_new o).node).grow) := by
  obtain ⟨hi, ho, hov, ht, hop, hb, hgr, hd, hc⟩ := attach_nodes_new o
  have h2 : (o.set "grow-radius" (.double g2)).grow_radius.gt dbl_0_0001 = false := by
    simpa [GeglProperties.set] using le_not_gt g2 hg2
  rw [hi, ho, hov, ht, hop, hb, hgr, hd, hc, attach_new_eq,
    update_graph_wired _ _ (by simp [wirings]), hg, gegl_operation_set,
    property_changed_wired, update_graph_wired _ _ (by simp [wirings]), h2]
  refine ⟨?_, ?_⟩
  · simp [source_of, wired, GeglConnection.enters, input_to_grow, grow_to_darken,
      fixed_connections]
  · simp [source_of, wired, wirings, GeglConnection.enters, input_to_grow, grow_to_darken,
      input_to_darken, fixed_connections, valid_ref]

/-- C3 witness: the defaults (radius 10.0, circle, grow-radius 12.0, black, opacity 1.0),
then grow-radius set to -5.0. -/
theorem end_to_end_topology_witness :
    default_properties.grow_radius.gt dbl_0_0001 = true
    ∧ (GDouble.finite (-5)).le dbl_0_0001 = true
    ∧ source_of (update_graph (attach (gegl_operation_new default_properties))).node
        (attach_nodes (gegl_operation_new default_properties).node).darken "input"
      = some (attach_nodes (gegl_operation_new default_properties).node).grow
    ∧ source_of (gegl_operation_set
          (update_graph (attach (gegl_operation_new default_properties)))
          "grow-radius" (.double (.finite (-5)))).node
        (attach_nodes (gegl_operation_new default_properties).node).darken "input"
      = some (attach_nodes (gegl_operation_new default_properties).node).input :=
  have hle : (GDouble.finite (-5)).le dbl_0_0001 = true := by
    norm_num [GDouble.le, dbl_0_0001]
  ⟨gt_default, hle,
    (end_to_end_topology default_properties (.finite (-5)) gt_default hle).1.2.1,
    (end_to_end_topology default_properties (.finite (-5)) gt_default hle).2.1⟩

theorem attached_well_formed (op : GeglOperation) (h : Attached op) :
    op.properties.user_data = some ⟨.input_proxy "input", .child 4, .child 5⟩
    ∧ unique_sources op.node ∧ no_dangling op.node
    ∧ valid_ref op.node (.input_proxy "input") ∧ valid_ref op.node (.child 4)
    ∧ valid_ref op.node (.child 5) := by
  obtain ⟨o, c, hc, rfl⟩ := attached_wired op h
  refine ⟨rfl, wired_unique_sources o c hc, (wired_well_formed o c hc).1, ?_, ?_, ?_⟩ <;>
  simp [valid_ref, wired]

/-- C4: on an instance that holds a state, whatever its graph, a second `update_graph`
call changes nothing of what the first one left (the connections are the same, and so is
everything else); and when no input pad has two sources and no connection dangles
before the call, the same holds after it. -/
theorem update_graph_idempotent (op : GeglOperation) (st : State)
    (hst : op.properties.user_data = some st)
    (hu : unique_sources op.node) (hd : no_dangling op.node)
    (hi : valid_ref op.node st.input) (hg : valid_ref op.node st.grow)
    (hk : valid_ref op.node st.darken) :
    update_graph (update_graph op) = update_graph op
    ∧ (update_graph (update_graph op)).node.connections = (update_graph op).node.connections
    ∧ unique_sources (update_graph op).node
    ∧ no_dangling (update_graph op).node :=
  ⟨update_graph_idem op, by rw [update_graph_idem],
    (update_graph_well_formed op st hst hu hd hi hg hk).1,
    (update_graph_well_formed op st hst hu hd hi hg hk).2⟩

/-- C4 witness: the instance `attach` leaves on the default property values. -/
theorem update_graph_idempotent_witness :
    (attach (gegl_operation_new default_properties)).properties.user_data
      = some ⟨.input_proxy "input", .child 4, .child 5⟩
    ∧ unique_sources (attach (gegl_operation_new default_properties)).node
    ∧ no_dangling (attach (gegl_operation_new default_properties)).node
    ∧ update_graph (update_graph (attach (gegl_operation_new default_properties)))
        = update_graph (attach (gegl_operation_new default_properties))
    ∧ unique_sources (update_graph (attach (gegl_operation_new default_properties))).node
    ∧ no_dangling (update_graph (attach (gegl_operation_new default_properties))).node :=
  have h := attached_well_formed _ (Attached.attach default_properties)
  have t := update_graph_idempotent (attach (gegl_operation_new default_properties))
    ⟨.input_proxy "input", .child 4, .child 5⟩ h.1 h.2.1 h.2.2.1 h.2.2.2.1 h.2.2.2.2.1
    h.2.2.2.2.2
  ⟨h.1, h.2.1, h.2.2.1, t.1, t.2.2.1, t.2.2.2⟩

/-- C5: on an instance that holds a state (with three distinct nodes), `update_graph`
selects the bypass topology (input proxy on darken's primary input) for every
grow-radius g <= 0.0001 and the grow topology (input -> grow -> darken) for every
g > 0.0001; so 0.0001 itself and -0.0001 select the bypass, 0.00011 selects the grow
topology, and the two topologies differ. -/
theorem update_graph_threshold (op : GeglOperation) (st : State)
    (hst : op.properties.user_data = some st)
    (hgd : st.grow ≠ st.darken) (hig : st.input ≠ st.grow) :
    (op.properties.grow_radius.le dbl_0_0001 = true →
      source_of (update_graph op).node st.darken "input" = some st.input
      ∧ source_of (update_graph op).node st.darken "input" ≠ some st.grow)
    ∧ (op.properties.grow_radius.gt dbl_0_0001 = true →
      source_of (update_graph op).node st.darken "input" = some st.grow
      ∧ source_of (update_graph op).node st.grow "input" = some st.input
      ∧ source_of (update_graph op).node st.darken "input" ≠ some st.input)
    ∧ (op.properties.grow_radius = dbl_0_0001 →
      source_of (update_graph op).node st.darken "input" = some st.input)
    ∧ (op.properties.grow_radius = dbl_0_00011 →
      source_of (update_graph op).node st.darken "input" = some st.grow
      ∧ source_of (update_graph op).node st.grow "input" = some st.input)
    ∧ (op.properties.grow_radius = dbl_neg_0_0001 →
      source_of (update_graph op).node st.darken "input" = some st.input) := by
  have hbypass : op.properties.grow_radius.gt dbl_0_0001 = false →
      source_of (update_graph op).node st.darken "input" = some st.input := by
    intro h
    rw [update_graph_node op st hst, h]
    exact source_of_connect_from_same _ _ _ _ _
  have hgrow : op.properties.grow_radius.gt dbl_0_0001 = true →
      source_of (update_graph op).node st.darken "input" = some st.grow
      ∧ source_of (update_graph op).node st.grow "input" = some st.input := by
    intro h
    rw [update_graph_node op st hst, h]
    refine ⟨source_of_connect_from_same _ _ _ _ _, ?_⟩
    rw [if_pos rfl, source_of_connect_from_other _ _ _ _ _ _ _ (fun h => hgd h.1.symm)]
    exact source_of_connect_from_same _ _ _ _ _
  refine ⟨?_, ?_, ?_, ?_, ?_⟩
  · intro h
    have e := hbypass (le_not_gt _ h)
    exact ⟨e, by rw [e]; exact fun h => hig (Option.some.inj h)⟩
  · intro h
    have e := hgrow h
    exact ⟨e.1, e.2, by rw [e.1]; exact fun h => hig (Option.some.inj h).symm⟩
  · intro h
    apply hbypass
    rw [h]
    norm_num [GDouble.gt, dbl_0_0001]
  · intro h
    apply hgrow
    rw [h]
    norm_num [GDouble.gt, dbl_0_0001, dbl_0_00011]
  · intro h
    apply hbypass
    rw [h]
    norm_num [GDouble.gt, dbl_0_0001, dbl_neg_0_0001]

/-- C5 witness: the instance `attach` leaves on the default property values, whose
grow-radius 12.0 exceeds 0.0001. -/
theorem update_graph_threshold_witness :
    (attach (gegl_operation_new default_properties)).properties.user_data
      = some ⟨.input_proxy "input", .child 4, .child 5⟩
    ∧ (GeglNodeRef.child 4 ≠ GeglNodeRef.child 5)
    ∧ (GeglNodeRef.input_proxy "input" ≠ GeglNodeRef.child 4)
    ∧ (attach (gegl_operation_new default_properties)).properties.grow_radius.gt dbl_0_0001
        = true
    ∧ source_of (update_graph (attach (gegl_operation_new default_properties))).node
        (.child 5) "input" = some (.child 4) :=
  have h := attached_well_formed _ (Attached.attach default_properties)
  have hg : (attach (gegl_operation_new default_properties)).properties.grow_radius.gt
      dbl_0_0001 = true := by
    rw [attach_new_eq]; exact gt_default
  ⟨h.1, by decide, by decide, hg,
    ((update_graph_threshold (attach (gegl_operation_new default_properties))
      ⟨.input_proxy "input", .child 4, .child 5⟩ h.1 (by decide) (by decide)).2.1 hg).1⟩

/-- C6: on every attached instance the redirections are exactly the six registered by
`attach` (grow-shape to the grow node's neighborhood, grow-radius to its radius, radius
to the blur node's std-dev-x and std-dev-y, color to the colour node's value, opacity to
the opacity node's value), the blur node's std-dev-x and std-dev-y both read the
external radius, and after the external radius is set to r both read r. -/
theorem redirection_fidelity (op : GeglOperation) (r : GDouble) (h : Attached op) :
    op.redirects
      = [⟨"opacity", (attach_nodes ⟨[], []⟩).opacity, "value"⟩,
         ⟨"color", (attach_nodes ⟨[], []⟩).color, "value"⟩,
         ⟨"radius", (attach_nodes ⟨[], []⟩).blur, "std-dev-y"⟩,
         ⟨"radius", (attach_nodes ⟨[], []⟩).blur, "std-dev-x"⟩,
         ⟨"grow-radius", (attach_nodes ⟨[], []⟩).grow, "radius"⟩,
         ⟨"grow-shape", (attach_nodes ⟨[], []⟩).grow, "neighborhood"⟩]
    ∧ gegl_node_get op.node (attach_nodes ⟨[], []⟩).blur "std-dev-x"
        = some (.double op.properties.radius)
    ∧ gegl_node_get op.node (attach_nodes ⟨[], []⟩).blur "std-dev-y"
        = some (.double op.properties.radius)
    ∧ (gegl_operation_set op "radius" (.double r)).properties.radius = r
    ∧ gegl_node_get (gegl_operation_set op "radius" (.double r)).node
        (attach_nodes ⟨[], []⟩).blur "std-dev-x" = some (.double r)
    ∧ gegl_node_get (gegl_operation_set op "radius" (.double r)).node
        (attach_nodes ⟨[], []⟩).blur "std-dev-y" = some (.double r)
    ∧ (gegl_operation_set op "radius" (.double r)).redirects = op.redirects := by
  obtain ⟨o, c, hc, rfl⟩ := attached_wired op h
  obtain ⟨_, _, _, _, hop, hb, hgr, _, hcol⟩ := attach_nodes_new default_properties
  have e : (gegl_operation_new default_properties).node = ⟨[], []⟩ := rfl
  rw [e] at hop hb hgr hcol
  rw [hop, hb, hgr, hcol, gegl_operation_set, property_changed_wired,
    update_graph_wired _ _ hc]
  simp [wired, gegl_node_get, get_property, GeglProperties.set]

/-- C6 witness: the instance `attach` leaves on the default property values, and the
radius 2. -/
theorem redirection_fidelity_witness :
    Attached (attach (gegl_operation_new default_properties))
    ∧ gegl_node_get (gegl_operation_set (attach (gegl_operation_new default_properties))
          "radius" (.double (.finite 2))).node
        (attach_nodes ⟨[], []⟩).blur "std-dev-x" = some (.double (.finite 2))
    ∧ gegl_node_get (gegl_operation_set (attach (gegl_operation_new default_properties))
          "radius" (.double (.finite 2))).node
        (attach_nodes ⟨[], []⟩).blur "std-dev-y" = some (.double (.finite 2)) :=
  ⟨Attached.attach default_properties,
    (redirection_fidelity _ (.finite 2) (Attached.attach default_properties)).2.2.2.2.1,
    (redirection_fidelity _ (.finite 2) (Attached.attach default_properties)).2.2.2.2.2.1⟩

/-- C8: on every attached instance `update_graph` leaves the properties (with the three
references of the state), the redirections and the children as they are; a connection
that does not enter the primary input of the darken node is there after the call exactly
when it was there before; and the eight other connections made by `attach` are there
before and after. -/
theorem update_graph_frame_attached (op : GeglOperation) (h : Attached op) :
    (update_graph op).properties = op.properties
    ∧ op.properties.user_data
        = some ⟨(attach_nodes ⟨[], []⟩).input, (attach_nodes ⟨[], []⟩).grow,
            (attach_nodes ⟨[], []⟩).darken⟩
    ∧ (update_graph op).redirects = op.redirects
    ∧ (update_graph op).node.children = op.node.children
    ∧ (∀ c : GeglConnection, c.enters (attach_nodes ⟨[], []⟩).darken "input" = false →
        (c ∈ (update_graph op).node.connections ↔ c ∈ op.node.connections))
    ∧ (∀ c ∈ ([⟨(attach_nodes ⟨[], []⟩).input, "output", (attach_nodes ⟨[], []⟩).grow, "input"⟩,
          ⟨(attach_nodes ⟨[], []⟩).darken, "output", (attach_nodes ⟨[], []⟩).blur, "input"⟩,
          ⟨(attach_nodes ⟨[], []⟩).blur, "output", (attach_nodes ⟨[], []⟩).opacity, "input"⟩,
          ⟨(attach_nodes ⟨[], []⟩).opacity, "output", (attach_nodes ⟨[], []⟩).translate, "input"⟩,
          ⟨(attach_nodes ⟨[], []⟩).translate, "output", (attach_nodes ⟨[], []⟩).over, "input"⟩,
          ⟨(attach_nodes ⟨[], []⟩).over, "output", (attach_nodes ⟨[], []⟩).output, "input"⟩,
          ⟨(attach_nodes ⟨[], []⟩).input, "output", (attach_nodes ⟨[], []⟩).over, "aux"⟩,
          ⟨(attach_nodes ⟨[], []⟩).color, "output", (attach_nodes ⟨[], []⟩).darken, "aux"⟩] :
          List GeglConnection),
        c ∈ op.node.connections ∧ c ∈ (update_graph op).node.connections) := by
  obtain ⟨hi, ho, hov, ht, hop, hb, hgr, hd, hcol⟩ := attach_nodes_new default_properties
  have e : (gegl_operation_new default_properties).node = ⟨[], []⟩ := rfl
  rw [e] at hi ho hov ht hop hb hgr hd hcol
  rw [hi, ho, hov, ht, hop, hb, hgr, hd, hcol]
  have hw := attached_well_formed op h
  have hf := update_graph_frame op
  obtain ⟨o, c, hc, rfl⟩ := attached_wired op h
  have hwf := wired_well_formed o c hc
  have hother : ∀ x : GeglConnection, x.enters (.child 5) "input" = false →
      (x ∈ (update_graph (wired o c)).node.connections ↔ x ∈ (wired o c).node.connections) :=
    fun x hx => update_graph_other_connections (wired o c)
      ⟨.input_proxy "input", .child 4, .child 5⟩ rfl hwf.2.1 hwf.2.2 x hx
  refine ⟨hf.1, hw.1, hf.2.1, hf.2.2, hother, ?_⟩
  have hbefore : ∀ x ∈ ([⟨.input_proxy "input", "output", .child 4, "input"⟩,
          ⟨.child 5, "output", .child 3, "input"⟩,
          ⟨.child 3, "output", .child 2, "input"⟩,
          ⟨.child 2, "output", .child 1, "input"⟩,
          ⟨.child 1, "output", .child 0, "input"⟩,
          ⟨.child 0, "output", .output_proxy "output", "input"⟩,
          ⟨.input_proxy "input", "output", .child 0, "aux"⟩,
          ⟨.child 6, "output", .child 5, "aux"⟩] : List GeglConnection),
        x ∈ (wired o c).node.connections ∧ x.enters (.child 5) "input" = false := by
    simp only [wirings, List.mem_cons, List.mem_singleton, List.not_mem_nil, or_false] at hc
    rcases hc with rfl | rfl | rfl | rfl <;>
    simp [wired, fixed_connections, input_to_grow, grow_to_darken, input_to_darken,
      GeglConnection.enters]
  intro x hx
  exact ⟨(hbefore x hx).1, (hother x (hbefore x hx).2).2 (hbefore x hx).1⟩

/-- C8 witness: the instance `attach` leaves on the default property values. -/
theorem update_graph_frame_attached_witness :
    Attached (attach (gegl_operation_new default_properties))
    ∧ (update_graph (attach (gegl_operation_new default_properties))).node.children
        = (attach (gegl_operation_new default_properties)).node.children
    ∧ (update_graph (attach (gegl_operation_new default_properties))).redirects
        = (attach (gegl_operation_new default_properties)).redirects :=
  ⟨Attached.attach default_properties,
    (update_graph_frame_attached _ (Attached.attach default_properties)).2.2.2.1,
    (update_graph_frame_attached _ (Attached.attach default_properties)).2.2.1⟩

/-- C9, as stated, fails: the blur node is created with `clip-extent` set to `FALSE`,
so extent clipping is not enabled on it. -/
theorem blur_clip_extent_not_enabled :
    ¬ (gegl_node_get (attach (gegl_operation_new default_properties)).node
        (attach_nodes (gegl_operation_new default_properties).node).blur "clip-extent"
        = some (.int TRUE)) := by
  rw [(attach_nodes_new default_properties).2.2.2.2.2.1, attach_new_eq]
  simp [gegl_node_get, wired, get_property, TRUE, FALSE]

/-- C9, amended: `attach` creates exactly seven children, over, translate, opacity,
gaussian-blur, median-blur, src-in and color in this order; the blur node is created with
abyss-policy 0 and clip-extent `FALSE` (extent clipping disabled), the grow node with
percentile and alpha-percentile 100 and abyss-policy `GEGL_ABYSS_NONE`, the translate
node with no property, the colour node with the value opaque black; and at the end of
`attach` these settings of the blur, grow and translate nodes still stand. -/
theorem attach_initial_configuration (o : GeglProperties) :
    (attach_nodes (gegl_operation_new o).node).gegl.children
      = [⟨"gegl:over", []⟩,
         ⟨"gegl:translate", []⟩,
         ⟨"gegl:opacity", []⟩,
         ⟨"gegl:gaussian-blur", [("clip-extent", .int FALSE), ("abyss-policy", .int 0)]⟩,
         ⟨"gegl:median-blur",
           [("percentile", .double (.finite 100)), ("alpha-percentile", .double (.finite 100)),
            ("abyss-policy", .int GEGL_ABYSS_NONE)]⟩,
         ⟨"gegl:src-in", []⟩,
         ⟨"gegl:color", [("value", .color ⟨0, 0, 0, 1⟩)]⟩]
    ∧ (attach (gegl_operation_new o)).node.children.map (fun c => c.operation)
      = ["gegl:over", "gegl:translate", "gegl:opacity", "gegl:gaussian-blur",
         "gegl:median-blur", "gegl:src-in", "gegl:color"]
    ∧ (attach (gegl_operation_new o)).node.children.length = 7
    ∧ gegl_node_get (attach (gegl_operation_new o)).node
        (attach_nodes (gegl_operation_new o).node).blur "abyss-policy" = some (.int 0)
    ∧ gegl_node_get (attach (gegl_operation_new o)).node
        (attach_nodes (gegl_operation_new o).node).blur "clip-extent" = some (.int FALSE)
    ∧ gegl_node_get (attach (gegl_operation_new o)).node
        (attach_nodes (gegl_operation_new o).node).grow "percentile"
      = some (.double (.finite 100))
    ∧ gegl_node_get (attach (gegl_operation_new o)).node
        (attach_nodes (gegl_operation_new o).node).grow "alpha-percentile"
      = some (.double (.finite 100))
    ∧ gegl_node_get (attach (gegl_operation_new o)).node
        (attach_nodes (gegl_operation_new o).node).grow "abyss-policy"
      = some (.int GEGL_ABYSS_NONE)
    ∧ (attach (gegl_operation_new o)).node.children.get? 1 = some ⟨"gegl:translate", []⟩ := by
  obtain ⟨_, _, _, _, _, hb, hgr, _, _⟩ := attach_nodes_new o
  rw [hb, hgr, attach_new_eq]
  refine ⟨?_, ?_⟩
  · simp [attach_nodes, gegl_operation_new, gegl_node_new_child, gegl_color_new]
  · simp [wired, gegl_node_get, get_property]

end Stroke
